import Mathlib

/-!
A shallow embedding of the Linux CPU subsystem of the hwinfo repository
(`src/linux/cpu.cpp`): `/proc/cpuinfo` parsing in `getAllCPUs`, ARM model
resolution, frequency probing, and the delta-based utilization sampler.

Conventions of the embedding:
* C++ strings are Lean `String`s; the workers operate on `List Char`.
* The filesystem is an explicit environment (`Env`): the `/proc/cpuinfo`
  text (`Option String`, `none` = unopenable) and an integer-valued read
  for every sysfs path.
* `std::stoi`/`std::stol` failures (thrown exceptions) are modelled by
  `Option`: `getAllCPUs` returns `none` when an uncaught exception would
  propagate out of the C++ function.
* IEEE doubles in the utilization sampler are modelled by exact rationals
  (`ℚ`); a zero-width time window, which in IEEE yields NaN or ±infinity
  that the range guard always rejects, is modelled by an explicit branch
  returning the sentinel `-1`.
-/

namespace Hwinfo

/-- Characters of the whitespace set `" \n\r\t"` used by the
block-emptiness test in `getAllCPUs` (`find_first_not_of`), and, modelled
from the spec, the set trimmed by `utils::strip`. -/
def isWsChar (c : Char) : Bool :=
  c = ' ' || c = '\n' || c = '\r' || c = '\t'

/-- Modelled from the spec: `utils::strip` (from `utils/stringutils.h`,
not part of src) trims surrounding whitespace from both ends. Worker on
character lists. -/
def stripL (l : List Char) : List Char :=
  ((l.dropWhile isWsChar).reverse.dropWhile isWsChar).reverse

/-- Modelled from the spec: `utils::strip` on a `String`. -/
def strip (s : String) : String := (stripL s.data).asString

/-- Modelled from the spec: worker of `utils::split` (from
`utils/stringutils.h`, not part of src): split on every occurrence of the
delimiter `d :: ds`. Fuel-based recursion; fuel `length + 1` always
suffices. -/
def splitGo (d : Char) (ds : List Char) : Nat → List Char → List Char → List (List Char)
  | 0, rest, acc => [acc.reverse ++ rest]
  | _ + 1, [], acc => [acc.reverse]
  | fuel + 1, c :: rest, acc =>
    if (d :: ds).isPrefixOf (c :: rest) then
      acc.reverse :: splitGo d ds fuel (List.drop ds.length rest) []
    else
      splitGo d ds fuel rest (c :: acc)

/-- Modelled from the spec: `utils::split` on character lists. -/
def splitL (s : List Char) : List Char → List (List Char)
  | [] => [s]
  | d :: ds => splitGo d ds (s.length + 1) s []

/-- Modelled from the spec: `utils::split` on `String`s. -/
def split (s delim : String) : List String :=
  (splitL s.data delim.data).map List.asString

/-- Numeric value of a decimal digit character. -/
def digitVal (c : Char) : Nat := c.toNat - 48

/-- Parse a non-empty run of leading decimal digits, ignoring everything
after it (the behaviour of `std::stoi`/`std::stol` on the digit part);
`none` when the string does not start with a digit. -/
def parseLeadingDigits (l : List Char) : Option Nat :=
  let ds := l.takeWhile Char.isDigit
  if ds.isEmpty then none
  else some (ds.foldl (fun a c => a * 10 + digitVal c) 0)

/-- C++ `std::stoi`/`std::stol`: skip leading whitespace, optional sign,
then a non-empty digit run (trailing characters ignored); `none` models
the exception thrown when no digits are found. -/
def parseCppInt (s : String) : Option Int :=
  match s.data.dropWhile isWsChar with
  | '-' :: rest => (parseLeadingDigits rest).map (fun n => -(n : Int))
  | '+' :: rest => (parseLeadingDigits rest).map (fun n => (n : Int))
  | l => (parseLeadingDigits l).map (fun n => (n : Int))

/-- Worker for `std::to_string` on naturals: most significant digit first,
fuel-based (fuel `n + 1` suffices). -/
def natToStringGo : Nat → Nat → List Char → List Char
  | 0, _, acc => acc
  | fuel + 1, n, acc =>
    if n < 10 then Char.ofNat (48 + n) :: acc
    else natToStringGo fuel (n / 10) (Char.ofNat (48 + n % 10) :: acc)

/-- C++ `std::to_string` on an integer. -/
def intToString (i : Int) : String :=
  match i with
  | Int.ofNat n => (natToStringGo (n + 1) n []).asString
  | Int.negSucc n => ('-' :: natToStringGo (n + 2) (n + 1) []).asString

/-- The `hwinfo::CPU` record as used by `src/linux/cpu.cpp`. Modelled from
the spec where the class header (`include/hwinfo/cpu.h`) is missing from
src: numeric fields default to the "unset" sentinel `-1`, strings and the
flag list default to empty. -/
structure CPU where
  _id : Int := -1
  _vendor : String := ""
  _modelName : String := ""
  _numPhysicalCores : Int := -1
  _numLogicalCores : Int := -1
  _L3CacheSize_Bytes : Int := -1
  _flags : List String := []
  _maxClockSpeed_MHz : Int := -1
  _regularClockSpeed_MHz : Int := -1
deriving DecidableEq

/-- The `Jiffies` counter snapshot (`all` total time units, `working`
non-idle units). Modelled from the spec where the struct definition
(`include/hwinfo/cpu.h`) is missing from src; a default-constructed
snapshot is zeroed. -/
structure Jiffies where
  all : Int := 0
  working : Int := 0
deriving DecidableEq

/-- The ambient filesystem: the `/proc/cpuinfo` text (`none` models a file
that cannot be opened) and the integer read from each path by
`filesystem::get_specs_by_file_path`. Modelled from the spec where
`utils/filesystem.h` is missing from src: a missing or unreadable path
reads as `-1`. -/
structure Env where
  cpuinfo : Option String
  fs : String → Int

/-- `getFrequencyFromPaths` (cpu.cpp:26-33): return `Hz / 1000` for the
first path whose read is `> -1`, else `-1`. -/
def getFrequencyFromPaths (env : Env) : List String → Int
  | [] => -1
  | p :: rest =>
    if env.fs p > -1 then env.fs p / 1000 else getFrequencyFromPaths env rest

/-- `getMaxClockSpeed_MHz` (cpu.cpp:37-49). -/
def getMaxClockSpeed_MHz (env : Env) (core_id : Int) : Int :=
  let basePath := "/sys/devices/system/cpu/cpu" ++ intToString core_id ++ "/cpufreq/"
  let policyPath := "/sys/devices/system/cpu/cpufreq/policy" ++ intToString core_id ++ "/"
  getFrequencyFromPaths env
    [basePath ++ "scaling_max_freq", basePath ++ "cpuinfo_max_freq",
     policyPath ++ "scaling_max_freq", policyPath ++ "cpuinfo_max_freq"]

/-- `getRegularClockSpeed_MHz` (cpu.cpp:53-66). -/
def getRegularClockSpeed_MHz (env : Env) (core_id : Int) : Int :=
  let basePath := "/sys/devices/system/cpu/cpu" ++ intToString core_id ++ "/cpufreq/"
  let policyPath := "/sys/devices/system/cpu/cpufreq/policy" ++ intToString core_id ++ "/"
  getFrequencyFromPaths env
    [basePath ++ "base_frequency", basePath ++ "scaling_cur_freq",
     basePath ++ "cpuinfo_cur_freq", policyPath ++ "scaling_cur_freq",
     policyPath ++ "cpuinfo_cur_freq"]

/-- `getMinClockSpeed_MHz` (cpu.cpp:70-82). -/
def getMinClockSpeed_MHz (env : Env) (core_id : Int) : Int :=
  let basePath := "/sys/devices/system/cpu/cpu" ++ intToString core_id ++ "/cpufreq/"
  let policyPath := "/sys/devices/system/cpu/cpufreq/policy" ++ intToString core_id ++ "/"
  getFrequencyFromPaths env
    [basePath ++ "scaling_min_freq", basePath ++ "cpuinfo_min_freq",
     policyPath ++ "scaling_min_freq", policyPath ++ "cpuinfo_min_freq"]

/-- The jiffies delta quotient `(current.working - last.working) /
(current.all - last.all)` of `CPU::currentUtilisation` /
`CPU::threadUtilisation` (cpu.cpp:118-123, 142-147). Doubles are
modelled by exact rationals; division by zero is handled separately in
the callers. -/
def jiffiesRatio (last current : Jiffies) : ℚ :=
  ((current.working - last.working : Int) : ℚ) / ((current.all - last.all : Int) : ℚ)

/-- Value computed by `CPU::currentUtilisation` (cpu.cpp:110-128) from the
stored snapshot `last` and the fresh snapshot `current`. A zero-width
window gives NaN or ±infinity in IEEE arithmetic, each of which the guard
`u < 0 || u > 1 || isnan u` rejects, so it is modelled as an explicit `-1`
branch. -/
def currentUtilisationValue (last current : Jiffies) : ℚ :=
  if current.all - last.all = 0 then -1
  else if jiffiesRatio last current < 0 ∨ jiffiesRatio last current > 1 then -1
  else jiffiesRatio last current

/-- One call of `CPU::currentUtilisation` as a state transformer: returns
the value and the new stored snapshot (the assignment `last = current` at
cpu.cpp:121 happens before the range guard). -/
def currentUtilisationStep (last current : Jiffies) : ℚ × Jiffies :=
  (currentUtilisationValue last current, current)

/-- Value computed by `CPU::threadUtilisation` (cpu.cpp:131-152) from the
stored per-index snapshot and the fresh snapshot; same delta quotient as
`currentUtilisationValue` but with valid range `[0, 100]`. -/
def threadUtilisationValue (last current : Jiffies) : ℚ :=
  if current.all - last.all = 0 then -1
  else if jiffiesRatio last current < 0 ∨ jiffiesRatio last current > 100 then -1
  else jiffiesRatio last current

/-- One call of `CPU::threadUtilisation` as a state transformer on the
stored snapshot list: an empty list is first resized to
`numLogicalCores` default-constructed snapshots (cpu.cpp:136-138), the
value is computed against entry `thread_index`, and that entry is
overwritten with `current` (cpu.cpp:145) before the range guard. -/
def threadUtilisationStep (numLogicalCores : Nat) (lastList : List Jiffies)
    (thread_index : Nat) (current : Jiffies) : ℚ × List Jiffies :=
  let l := if lastList.isEmpty then List.replicate numLogicalCores ({} : Jiffies) else lastList
  (threadUtilisationValue (l.getD thread_index {}) current, l.set thread_index current)

/-- `ARM_IMPLEMENTERS` (cpu.cpp:221-225): implementer hex code to vendor
name. `std::map` lookups are by exact key, so an association list with
distinct keys is a faithful model. -/
def ARM_IMPLEMENTERS : List (String × String) :=
  [("0x41", "ARM"), ("0x42", "Broadcom"), ("0x43", "Cavium"),
   ("0x44", "DEC"), ("0x4e", "NVIDIA"), ("0x50", "APM"),
   ("0x51", "Qualcomm"), ("0x53", "Samsung"), ("0x54", "Texas Instruments"),
   ("0x56", "Marvell"), ("0x66", "Faraday"), ("0x69", "Intel")]

/-- The nested `arm_models` table of `getARMModelName` (cpu.cpp:229-355):
implementer hex code to (part hex code to model name). -/
def arm_models : List (String × List (String × String)) :=
  [("0x41",
    [("0x810", "ARM810"), ("0x920", "ARM920"), ("0x922", "ARM922"),
     ("0x926", "ARM926"), ("0x940", "ARM940"), ("0x946", "ARM946"),
     ("0x966", "ARM966"), ("0xa20", "ARM1020"), ("0xa22", "ARM1022"),
     ("0xa26", "ARM1026"), ("0xb02", "ARM11 MPCore"), ("0xb36", "ARM1136"),
     ("0xb56", "ARM1156"), ("0xb76", "ARM1176"), ("0xc05", "Cortex-A5"),
     ("0xc07", "Cortex-A7"), ("0xc08", "Cortex-A8"), ("0xc09", "Cortex-A9"),
     ("0xc0d", "Cortex-A17 (Original A12)"), ("0xc0e", "Cortex-A17"),
     ("0xc0f", "Cortex-A15"), ("0xc14", "Cortex-R4"), ("0xc15", "Cortex-R5"),
     ("0xc17", "Cortex-R7"), ("0xc18", "Cortex-R8"), ("0xc20", "Cortex-M0"),
     ("0xc21", "Cortex-M1"), ("0xc23", "Cortex-M3"), ("0xc24", "Cortex-M4"),
     ("0xc27", "Cortex-M7"), ("0xc60", "Cortex-M0+"), ("0xd01", "Cortex-A32"),
     ("0xd03", "Cortex-A53"), ("0xd04", "Cortex-A35"), ("0xd05", "Cortex-A55"),
     ("0xd07", "Cortex-A57"), ("0xd08", "Cortex-A72"), ("0xd09", "Cortex-A73"),
     ("0xd0a", "Cortex-A75"), ("0xd0b", "Cortex-A76"), ("0xd0c", "Neoverse-N1"),
     ("0xd0d", "Cortex-A77"), ("0xd13", "Cortex-R52"), ("0xd20", "Cortex-M23"),
     ("0xd21", "Cortex-M33"), ("0xd40", "Neoverse-V1"), ("0xd41", "Cortex-A78"),
     ("0xd42", "Cortex-A78AE"), ("0xd44", "Cortex-X1"), ("0xd46", "Cortex-A510"),
     ("0xd47", "Cortex-A710"), ("0xd48", "Cortex-X2"), ("0xd49", "Neoverse-N2"),
     ("0xd4a", "Neoverse-E1"), ("0xd4b", "Cortex-A78C"), ("0xd4d", "Cortex-A715")]),
   ("0x42",
    [("0x00f", "Brahma B15"), ("0x100", "Brahma B53"), ("0x516", "ThunderX2")]),
   ("0x43",
    [("0x0a0", "ThunderX"), ("0x0a1", "ThunderX 88XX"), ("0x0a2", "ThunderX 81XX"),
     ("0x0a3", "ThunderX 83XX"), ("0x0af", "ThunderX2 99xx")]),
   ("0x44",
    [("0xa10", "SA110"), ("0xa11", "SA1100")]),
   ("0x4e",
    [("0x000", "Denver"), ("0x003", "Denver 2")]),
   ("0x50",
    [("0x000", "X-Gene")]),
   ("0x51",
    [("0x00f", "Scorpion"), ("0x02d", "Scorpion"), ("0x04d", "Krait"),
     ("0x06f", "Krait"), ("0x201", "Kryo"), ("0x205", "Kryo"),
     ("0x211", "Kryo"), ("0x800", "Falkor V1/Kryo"), ("0x801", "Kryo V2"),
     ("0x802", "Kryo 3xx gold"), ("0x803", "Kryo 3xx silver"),
     ("0x804", "Kryo 4xx/5xx gold"), ("0x805", "Kryo 4xx/5xx silver"),
     ("0xc00", "Falkor"), ("0xc01", "Saphira")]),
   ("0x53",
    [("0x001", "Exynos-m1")]),
   ("0x54", []),
   ("0x56",
    [("0x131", "Feroceon 88FR131"), ("0x581", "PJ4/PJ4b"), ("0x584", "PJ4B-MP")]),
   ("0x66",
    [("0x526", "FA526"), ("0x626", "FA626")]),
   ("0x69",
    [("0x200", "i80200"), ("0x210", "PXA250A"), ("0x212", "PXA210A"),
     ("0x242", "i80321-400"), ("0x243", "i80321-600"), ("0x290", "PXA250B/PXA26x"),
     ("0x292", "PXA210B"), ("0x2c2", "i80321-400-B0"), ("0x2c3", "i80321-600-B0"),
     ("0x2d0", "PXA250C/PXA255/PXA26x"), ("0x2d2", "PXA210C"), ("0x2e3", "i80219"),
     ("0x411", "PXA27x"), ("0x41c", "IPX425-533"), ("0x41d", "IPX425-400"),
     ("0x41f", "IPX425-266"), ("0x682", "PXA32x"), ("0x683", "PXA930/PXA935"),
     ("0x688", "PXA30x"), ("0x689", "PXA31x"), ("0xb11", "SA1110"),
     ("0xc12", "IPX1200")])]

/-- `getARMModelName` (cpu.cpp:228-363): nested lookup, defaulting to
`"Unknown Model"` when the implementer or the part is absent. -/
def getARMModelName (implementer part_hex : String) : String :=
  match arm_models.lookup implementer with
  | some parts =>
    match parts.lookup part_hex with
    | some model => model
    | none => "Unknown Model"
  | none => "Unknown Model"

/-- Key of the ARM core map of `getAllCPUs`:
(implementer, variant, part). -/
abbrev ArmKey := String × String × String

/-- Lexicographic comparison of character lists by code point, the
`std::string` ordering used by `std::map`. -/
def strLtL : List Char → List Char → Bool
  | [], [] => false
  | [], _ :: _ => true
  | _ :: _, [] => false
  | a :: as, b :: bs =>
    if a.toNat < b.toNat then true
    else if b.toNat < a.toNat then false
    else strLtL as bs

/-- `std::string` `operator<`. -/
def strLt (a b : String) : Bool := strLtL a.data b.data

/-- `std::tuple` lexicographic `operator<` on `ArmKey`. -/
def keyLt (a b : ArmKey) : Bool :=
  strLt a.1 b.1 ||
    (a.1 == b.1 &&
      (strLt a.2.1 b.2.1 || (a.2.1 == b.2.1 && strLt a.2.2 b.2.2)))

/-- `std::map::find` on the ARM core map. -/
def mapFind (m : List (ArmKey × Int)) (k : ArmKey) : Option Int := m.lookup k

/-- `std::map::operator[]` assignment on the ARM core map: overwrite an
existing key or insert keeping keys in ascending `keyLt` order, so that
list order models `std::map` iteration order. -/
def mapInsert : List (ArmKey × Int) → ArmKey → Int → List (ArmKey × Int)
  | [], k, v => [(k, v)]
  | (k0, v0) :: rest, k, v =>
    if keyLt k k0 then (k, v) :: (k0, v0) :: rest
    else if k == k0 then (k, v) :: rest
    else (k0, v0) :: mapInsert rest k v

/-- The per-block transient state of the line loop in `getAllCPUs`
(cpu.cpp:406-484): the candidate record, the block-local ARM identity
strings, and the loop-external variables `cpuId`, `maxProcessorIndex`,
`isARM`. -/
structure LState where
  cpu : CPU
  implementer : String
  partHex : String
  variant : String
  cpuId : Int
  maxProcessorIndex : Int
  isARM : Bool

/-- One iteration of the line loop of `getAllCPUs` (cpu.cpp:416-483):
split the line on `:`, strip the first two tokens, and dispatch on the
key name exactly as the source's if/else chain does. `none` models a
`std::stoi` exception propagating out (only the `cache size` parse is
wrapped in try/catch in the source). -/
def processLine (st : LState) (line : String) : Option LState :=
  match split line ":" with
  | k :: v :: _ =>
    let name := strip k
    let value := strip v
    if name = "vendor_id" then
      some { st with cpu := { st.cpu with _vendor := value } }
    else if name = "CPU implementer" then
      let imp :=
        if value.data.take 2 = ['0', 'x'] then (value.data.drop 2).asString else value
      let implementerKey := "0x" ++ imp
      match ARM_IMPLEMENTERS.lookup implementerKey with
      | some vendorName =>
        some { st with implementer := imp, isARM := true,
                       cpu := { st.cpu with _vendor := vendorName } }
      | none =>
        some { st with implementer := imp,
                       cpu := { st.cpu with
                                _vendor := "Unknown Vendor (" ++ implementerKey ++ ")" } }
    else if name = "processor" then
      match parseCppInt value with
      | some n => some { st with cpuId := n, maxProcessorIndex := st.maxProcessorIndex + 1 }
      | none => none
    else if name = "model name" ∨ name = "Processor" then
      some { st with cpu := { st.cpu with _modelName := value } }
    else if name = "cache size" then
      match (split value " ").head? with
      | some tok =>
        match parseCppInt tok with
        | some n => some { st with cpu := { st.cpu with _L3CacheSize_Bytes := n * 1024 } }
        | none => some st
      | none => some st
    else if name = "siblings" then
      match parseCppInt value with
      | some n => some { st with cpu := { st.cpu with _numLogicalCores := n } }
      | none => none
    else if name = "cpu cores" then
      match parseCppInt value with
      | some n => some { st with cpu := { st.cpu with _numPhysicalCores := n } }
      | none => none
    else if name = "flags" ∨ name = "Features" then
      some { st with cpu := { st.cpu with _flags := split value " " } }
    else if name = "physical id" then
      match parseCppInt value with
      | some n => some { st with cpu := { st.cpu with _id := n } }
      | none => none
    else if name = "CPU part" then
      some { st with partHex := value,
                     cpu := if st.implementer ≠ "" then
                              { st.cpu with
                                _modelName := getARMModelName ("0x" ++ st.implementer) value }
                            else st.cpu }
    else if name = "CPU variant" then
      some { st with variant := value }
    else some st
  | _ => some st

/-- The line loop of `getAllCPUs` over one block. -/
def foldLines : LState → List String → Option LState
  | st, [] => some st
  | st, l :: rest =>
    match processLine st l with
    | some st' => foldLines st' rest
    | none => none

/-- State carried across blocks in `getAllCPUs`: accumulated records, the
ARM core map, and the loop-external variables. -/
structure BState where
  cpus : List CPU
  armCoreMap : List (ArmKey × Int)
  isARM : Bool
  maxProcessorIndex : Int
  cpuId : Int

/-- Initial state of `getAllCPUs` (cpu.cpp:366-403). -/
def initBState : BState := ⟨[], [], false, 0, 0⟩

/-- Per-block initial line-loop state: fresh candidate record and ARM
strings, loop-external variables carried over. -/
def initLState (st : BState) : LState :=
  ⟨{}, "", "", "", st.cpuId, st.maxProcessorIndex, st.isARM⟩

/-- The post-line-loop ARM bookkeeping of `getAllCPUs` (cpu.cpp:486-506):
key the block by (implementer, variant, part); a first-seen key resets the
processor counter to `1` and keeps the block's `cpuId` as `_id`; a
repeated key copies the `_id` of the last accumulated record (if any);
the map then stores the counter under the key. Returns the adjusted
candidate, the new map, and the new counter. -/
def armAdjust (cpus : List CPU) (armCoreMap : List (ArmKey × Int)) (ls : LState) :
    CPU × List (ArmKey × Int) × Int :=
  if ls.isARM then
    let armKey : ArmKey := (ls.implementer, ls.variant, ls.partHex)
    match mapFind armCoreMap armKey with
    | none => ({ ls.cpu with _id := ls.cpuId }, mapInsert armCoreMap armKey 1, 1)
    | some _ =>
      let cpu :=
        match cpus.getLast? with
        | some c => { ls.cpu with _id := c._id }
        | none => ls.cpu
      (cpu, mapInsert armCoreMap armKey ls.maxProcessorIndex, ls.maxProcessorIndex)
  else
    (ls.cpu, armCoreMap, ls.maxProcessorIndex)

/-- Tail of one block-loop iteration of `getAllCPUs` (cpu.cpp:486-521),
after the line loop: do the ARM bookkeeping, skip the candidate if an
accumulated record already carries its `_id` (the `continue` at
cpu.cpp:512 still keeps the updated map and counters), otherwise probe
the clock speeds at index `_id` and append. -/
def processBlockPost (env : Env) (st : BState) (ls : LState) : Option BState :=
  match armAdjust st.cpus st.armCoreMap ls with
  | (cpu, armMap, maxIdx) =>
    if st.cpus.any (fun c => c._id == cpu._id) then
      some ⟨st.cpus, armMap, ls.isARM, maxIdx, ls.cpuId⟩
    else
      some ⟨st.cpus ++
              [{ cpu with
                 _maxClockSpeed_MHz := getMaxClockSpeed_MHz env cpu._id,
                 _regularClockSpeed_MHz := getRegularClockSpeed_MHz env cpu._id }],
            armMap, ls.isARM, maxIdx, ls.cpuId⟩

/-- One iteration of the block loop of `getAllCPUs` (cpu.cpp:406-521):
run the line loop, then the post-line bookkeeping. -/
def processBlock (env : Env) (st : BState) (block : String) : Option BState :=
  match foldLines (initLState st) (split block "\n") with
  | none => none
  | some ls => processBlockPost env st ls

/-- The block loop of `getAllCPUs`. -/
def processBlocks (env : Env) : BState → List String → Option BState
  | st, [] => some st
  | st, b :: bs =>
    match processBlock env st b with
    | some st' => processBlocks env st' bs
    | none => none

/-- The ARM reconciliation pass of `getAllCPUs` (cpu.cpp:523-536): the
`idx`-th record (while one exists) receives the `idx`-th stored counter of
the ARM core map, in map iteration order, as both its physical and its
logical core count. -/
def applyArmCounts : List CPU → List Int → List CPU
  | cpus, [] => cpus
  | [], _ => []
  | c :: cs, n :: ns =>
    { c with _numPhysicalCores := n, _numLogicalCores := n } :: applyArmCounts cs ns

/-- The block-emptiness test of `getAllCPUs` (cpu.cpp:391-394):
`blk.find_first_not_of(" \n\r\t") == std::string::npos`. -/
def blockIsAllWs (b : String) : Bool := b.data.all isWsChar

/-- `getAllCPUs` (cpu.cpp:365-539) over an explicit environment. `none`
models a `std::stoi` exception propagating out of the C++ function; every
other outcome, including an unopenable or empty `/proc/cpuinfo`, is a
normal return. -/
def getAllCPUs (env : Env) : Option (List CPU) :=
  match env.cpuinfo with
  | none => some []
  | some file =>
    if file = "" then some []
    else if ((split file "\n\n").filter (fun b => !(blockIsAllWs b))).isEmpty then
      some []
    else
      match processBlocks env initBState
              ((split file "\n\n").filter (fun b => !(blockIsAllWs b))) with
      | some st =>
        some (if st.isARM then applyArmCounts st.cpus (st.armCoreMap.map Prod.snd)
              else st.cpus)
      | none => none

/-- Modelled from the spec: the quantity the spec's ARM reconciliation
claim refers to — "the count of distinct core-topology identifiers read
from the per-logical-processor sysfs topology file across all ARM logical
processors seen". No such sysfs read exists in src; `coreId` stands for
the per-logical-processor topology file contents and `procs` for the ARM
logical processor indices seen. -/
def armSpecNumPhysicalCores (coreId : Int → Int) (procs : List Int) : Nat :=
  (procs.map coreId).dedup.length

/-- An x86-style `/proc/cpuinfo` text: two blocks, both with
`physical id: 0` and `siblings: 8`. -/
def inputX86Dup : String :=
  "processor\t: 0\nvendor_id\t: GenuineIntel\nmodel name\t: Intel Core Test\nphysical id\t: 0\nsiblings\t: 8\ncpu cores\t: 4\nflags\t: fpu sse\n\nprocessor\t: 1\nvendor_id\t: GenuineIntel\nmodel name\t: Intel Core Test\nphysical id\t: 0\nsiblings\t: 8\ncpu cores\t: 4\nflags\t: fpu sse\n"

/-- Environment for the x86 duplicate-`physical id` scenario; every sysfs
read fails. -/
def envX86Dup : Env := ⟨some inputX86Dup, fun _ => -1⟩

/-- The single record produced by `getAllCPUs` on `envX86Dup`. -/
def cpuRecX86 : CPU :=
  { _id := 0, _vendor := "GenuineIntel", _modelName := "Intel Core Test",
    _numPhysicalCores := 4, _numLogicalCores := 8, _L3CacheSize_Bytes := -1,
    _flags := ["fpu", "sse"], _maxClockSpeed_MHz := -1, _regularClockSpeed_MHz := -1 }

/-- An ARM-style `/proc/cpuinfo` text: two logical processors sharing the
implementer/variant/part triple (0x41, 0x0, 0xd03). -/
def inputArm2 : String :=
  "processor\t: 0\nCPU implementer\t: 0x41\nCPU variant\t: 0x0\nCPU part\t: 0xd03\n\nprocessor\t: 1\nCPU implementer\t: 0x41\nCPU variant\t: 0x0\nCPU part\t: 0xd03\n"

/-- Environment for the ARM scenario; every sysfs read fails. -/
def envArm2 : Env := ⟨some inputArm2, fun _ => -1⟩

/-- The single record produced by `getAllCPUs` on `envArm2`. -/
def cpuRecArm2 : CPU :=
  { _id := 0, _vendor := "ARM", _modelName := "Cortex-A53",
    _numPhysicalCores := 2, _numLogicalCores := 2, _L3CacheSize_Bytes := -1,
    _flags := [], _maxClockSpeed_MHz := -1, _regularClockSpeed_MHz := -1 }

/-- Environment whose frequency reads succeed only for the path `"b"`. -/
def envFreqB : Env := ⟨none, fun s => if s = "b" then 2000 else -1⟩

/-- Unfolding of `getFrequencyFromPaths` on a non-empty path list. -/
theorem getFrequencyFromPaths_cons (env : Env) (p : String) (rest : List String) :
    getFrequencyFromPaths env (p :: rest) =
      if env.fs p > -1 then env.fs p / 1000 else getFrequencyFromPaths env rest := rfl

/-- The ARM reconciliation pass never changes the `_id` fields of the
accumulated records. -/
theorem applyArmCounts_map_id (cpus : List CPU) (counts : List Int) :
    (applyArmCounts cpus counts).map CPU._id = cpus.map CPU._id := by
  induction cpus generalizing counts with
  | nil => cases counts <;> rfl
  | cons c cs ih =>
    cases counts with
    | nil => rfl
    | cons n ns => simp [applyArmCounts, ih]

/-- One block-loop iteration either leaves the accumulated records
unchanged (the duplicate-`_id` skip, or a propagated parse failure) or
appends exactly one record whose `_id` differs from every accumulated
record's `_id`. -/
theorem processBlock_cpus (env : Env) (st : BState) (b : String) (st' : BState)
    (h : processBlock env st b = some st') :
    st'.cpus = st.cpus ∨
      ∃ c, st'.cpus = st.cpus ++ [c] ∧ ∀ a ∈ st.cpus, a._id ≠ c._id := by
  unfold processBlock at h
  split at h
  · exact absurd h (by simp)
  · rename_i ls hf
    unfold processBlockPost at h
    split at h
    rename_i cpu armMap maxIdx hadj
    split at h
    · rename_i hg
      left
      cases h
      rfl
    · rename_i hg
      cases h
      right
      refine ⟨_, rfl, ?_⟩
      intro a ha hid
      apply hg
      rw [List.any_eq_true]
      exact ⟨a, ha, by simpa using hid⟩

/-- The block loop preserves pairwise distinctness of the `_id` fields. -/
theorem processBlocks_pairwise (env : Env) :
    ∀ (bs : List String) (st st' : BState),
      processBlocks env st bs = some st' →
      st.cpus.Pairwise (fun a b => a._id ≠ b._id) →
      st'.cpus.Pairwise (fun a b => a._id ≠ b._id) := by
  intro bs
  induction bs with
  | nil =>
    intro st st' h hp
    cases h
    exact hp
  | cons b rest ih =>
    intro st st' h hp
    unfold processBlocks at h
    split at h
    · rename_i st1 hb
      refine ih st1 st' h ?_
      rcases processBlock_cpus env st b st1 hb with heq | ⟨c, heq, hne⟩
      · rwa [heq]
      · rw [heq, List.pairwise_append]
        refine ⟨hp, List.pairwise_singleton _ _, ?_⟩
        intro a ha b' hb'
        rw [List.mem_singleton] at hb'
        subst hb'
        exact hne a ha
    · exact absurd h (by simp)

/-- Pairwise `_id`-distinctness transfers along equality of the `_id`
projections. -/
theorem pairwise_id_of_map_eq (l l' : List CPU)
    (h : l'.map CPU._id = l.map CPU._id)
    (hp : l.Pairwise (fun a b => a._id ≠ b._id)) :
    l'.Pairwise (fun a b => a._id ≠ b._id) := by
  have h1 : (l.map CPU._id).Pairwise (fun a b => a ≠ b) := by
    rw [List.pairwise_map]
    exact hp
  rw [← h, List.pairwise_map] at h1
  exact h1

/-- Every character of every token produced by the split worker comes
from the remaining input or the accumulator. -/
theorem splitGo_mem_subset (d : Char) (ds : List Char) :
    ∀ (fuel : Nat) (rest acc t : List Char), t ∈ splitGo d ds fuel rest acc →
      ∀ c ∈ t, c ∈ rest ∨ c ∈ acc := by
  intro fuel
  induction fuel with
  | zero =>
    intro rest acc t ht c hc
    simp only [splitGo, List.mem_singleton] at ht
    subst ht
    rcases List.mem_append.1 hc with h | h
    · right; simpa using h
    · left; exact h
  | succ n ih =>
    intro rest acc t ht c hc
    cases rest with
    | nil =>
      simp only [splitGo, List.mem_singleton] at ht
      subst ht
      right; simpa using hc
    | cons x xs =>
      by_cases hp : (d :: ds).isPrefixOf (x :: xs)
      · rw [splitGo, if_pos hp] at ht
        rcases List.mem_cons.1 ht with h | h
        · subst h; right; simpa using hc
        · rcases ih _ _ t h c hc with h2 | h2
          · left
            exact List.mem_cons_of_mem x (List.drop_subset _ _ h2)
          · simp at h2
      · rw [splitGo, if_neg hp] at ht
        rcases ih _ _ t ht c hc with h2 | h2
        · left; exact List.mem_cons_of_mem x h2
        · rcases List.mem_cons.1 h2 with h3 | h3
          · left; subst h3; exact List.mem_cons_self _ _
          · right; exact h3

/-- Every character of every token produced by `splitL` comes from the
input string. -/
theorem splitL_mem_subset (s delim t : List Char)
    (ht : t ∈ splitL s delim) : ∀ c ∈ t, c ∈ s := by
  cases delim with
  | nil =>
    simp only [splitL, List.mem_singleton] at ht
    subst ht
    exact fun c hc => hc
  | cons d ds =>
    intro c hc
    rcases splitGo_mem_subset d ds (s.length + 1) s [] t ht c hc with h | h
    · exact h
    · simp at h

/-- Claim C1, counterexample. The claim says the ARM reconciliation pass
sets `numPhysicalCores` of each ARM record to the count of distinct
core-topology identifiers read from the per-logical-processor sysfs
topology file. On an input with two ARM logical processors sharing one
(implementer, variant, part) triple, in an environment whose topology
files report the same core identifier `0` for both (one distinct
identifier, `armSpecNumPhysicalCores ... = 1`), the code instead
produces `numPhysicalCores = 2`: it never reads any sysfs topology
file. -/
theorem arm_reconciliation_sysfs_cex :
    getAllCPUs envArm2 = some [cpuRecArm2] ∧
    cpuRecArm2._numPhysicalCores = 2 ∧
    armSpecNumPhysicalCores (fun _ => 0) [0, 1] = 1 ∧
    (2 : Int) ≠ 1 :=
  ⟨by set_option maxRecDepth 40000 in decide, rfl, by decide, by decide⟩

/-- Claim C1, amended: after all blocks, if any block's implementer
matched the known table, the reconciliation pass assigns, to the `i`-th
record (in ascending order of the ARM core map's (implementer, variant,
part) keys, while records remain), both `numPhysicalCores` and
`numLogicalCores` equal to the `i`-th stored processor counter; no sysfs
topology file is read, and the records' ids are unchanged. On the
two-processor single-triple ARM input both fields of the single record
equal `2`, the total count of ARM logical processors seen. -/
theorem arm_reconciliation_amended :
    (∀ (cpus : List CPU) (counts : List Int),
      (applyArmCounts cpus counts).map CPU._id = cpus.map CPU._id) ∧
    (∀ (cpus : List CPU) (counts : List Int) (i : Nat),
      i < cpus.length → i < counts.length →
      ((applyArmCounts cpus counts).getD i {})._numPhysicalCores = counts.getD i 0 ∧
      ((applyArmCounts cpus counts).getD i {})._numLogicalCores = counts.getD i 0) ∧
    (getAllCPUs envArm2 = some [cpuRecArm2] ∧
      cpuRecArm2._numPhysicalCores = 2 ∧ cpuRecArm2._numLogicalCores = 2) := by
  refine ⟨applyArmCounts_map_id, ?_,
    by set_option maxRecDepth 40000 in decide, rfl, rfl⟩
  intro cpus counts i hc hn
  induction cpus generalizing counts i with
  | nil => simp at hc
  | cons c cs ih =>
    cases counts with
    | nil => simp at hn
    | cons n ns =>
      cases i with
      | zero => exact ⟨rfl, rfl⟩
      | succ j =>
        show ((applyArmCounts cs ns).getD j {})._numPhysicalCores = ns.getD j 0 ∧ _
        exact ih ns j (by simpa using hc) (by simpa using hn)

/-- Witness for the amended claim C1 at a concrete record list and
counter list. -/
theorem arm_reconciliation_amended_w :
    ((applyArmCounts [{}, {}] [5, 7]).getD 1 {})._numPhysicalCores = 7 ∧
    ((applyArmCounts [{}, {}] [5, 7]).getD 1 {})._numLogicalCores = 7 :=
  ⟨((arm_reconciliation_amended.2.1 [{}, {}] [5, 7] 1 (by decide) (by decide)).1).trans
      (by decide),
   ((arm_reconciliation_amended.2.1 [{}, {}] [5, 7] 1 (by decide) (by decide)).2).trans
      (by decide)⟩

/-- Claim C2: for every environment on which `getAllCPUs` returns
normally, no two records of the result carry the same `_id` — the
deduplication guard at cpu.cpp:508-513 skips any candidate whose `_id` is
already present, and the reconciliation pass does not touch ids. -/
theorem getAllCPUs_distinct_ids (env : Env) (out : List CPU)
    (h : getAllCPUs env = some out) :
    out.Pairwise (fun a b => a._id ≠ b._id) := by
  unfold getAllCPUs at h
  split at h
  · cases h
    exact List.Pairwise.nil
  · split at h
    · cases h
      exact List.Pairwise.nil
    · split at h
      · cases h
        exact List.Pairwise.nil
      · split at h
        · rename_i st hst
          cases h
          have hp : st.cpus.Pairwise (fun a b => a._id ≠ b._id) :=
            processBlocks_pairwise env _ initBState st hst List.Pairwise.nil
          split
          · exact pairwise_id_of_map_eq st.cpus _ (applyArmCounts_map_id _ _) hp
          · exact hp
        · exact absurd h (by simp)

/-- Witness for claim C2 on the concrete x86 input whose two blocks
repeat `physical id: 0`. -/
theorem getAllCPUs_distinct_ids_w :
    [cpuRecX86].Pairwise (fun a b => a._id ≠ b._id) :=
  getAllCPUs_distinct_ids envX86Dup [cpuRecX86]
    (by set_option maxRecDepth 40000 in decide)

/-- Claim C3: whole-CPU utilization is the delta quotient
`(current.working - last.working) / (current.all - last.all)` against the
stored snapshot, the fresh snapshot becomes the new stored snapshot, and
with `all` increasing by 100 and `working` by 40 the call returns
`0.4`. -/
theorem currentUtilisation_delta_formula :
    (∀ last current : Jiffies, current.all - last.all ≠ 0 →
      0 ≤ jiffiesRatio last current → jiffiesRatio last current ≤ 1 →
      currentUtilisationStep last current = (jiffiesRatio last current, current)) ∧
    (∀ last current : Jiffies, current.all = last.all + 100 →
      current.working = last.working + 40 →
      currentUtilisationStep last current = (0.4, current)) := by
  constructor
  · intro last current h0 hlo hhi
    unfold currentUtilisationStep currentUtilisationValue
    rw [if_neg h0, if_neg]
    push_neg
    exact ⟨hlo, hhi⟩
  · intro last current h1 h2
    unfold currentUtilisationStep currentUtilisationValue jiffiesRatio
    rw [h1, h2]
    norm_num

/-- Witness for claim C3 at the snapshots (0, 0) and (100, 40). -/
theorem currentUtilisation_delta_formula_w :
    currentUtilisationStep ⟨0, 0⟩ ⟨100, 40⟩ = (0.4, ⟨100, 40⟩) :=
  currentUtilisation_delta_formula.2 ⟨0, 0⟩ ⟨100, 40⟩ (by norm_num) (by norm_num)

/-- Claim C4: whenever the whole-CPU computation is invalid — zero-width
window (`current.all = last.all`, which in IEEE doubles produces NaN or
±infinity), or a quotient below 0 or above 1 — the call returns the
sentinel `-1`; the operation is a total function, so no exception
escapes. -/
theorem currentUtilisation_sentinel (last current : Jiffies)
    (h : current.all = last.all ∨ jiffiesRatio last current < 0 ∨
      1 < jiffiesRatio last current) :
    (currentUtilisationStep last current).1 = -1 := by
  unfold currentUtilisationStep currentUtilisationValue
  by_cases h0 : current.all - last.all = 0
  · simp [h0]
  · rcases h with h | h | h
    · exact absurd (by rw [h, sub_self]) h0
    · simp [h0, h]
    · simp only [if_neg h0]
      rw [if_pos (Or.inr h)]

/-- Witness for claim C4 at a zero-width window. -/
theorem currentUtilisation_sentinel_w :
    (currentUtilisationStep ⟨9, 4⟩ ⟨9, 4⟩).1 = -1 :=
  currentUtilisation_sentinel ⟨9, 4⟩ ⟨9, 4⟩ (Or.inl rfl)

/-- Claim C5: per-thread utilization uses the same delta quotient as the
whole-CPU sampler against an indexed snapshot store sized to the
logical-core count, but with valid range `[0, 100]`: an in-range quotient
is returned as-is, an out-of-range quotient or a zero-width window (NaN
in IEEE) yields `-1`; where both ranges accept the quotient, the
per-thread value coincides with the whole-CPU value. -/
theorem threadUtilisation_range_policy :
    (∀ last current : Jiffies, current.all - last.all ≠ 0 →
      0 ≤ jiffiesRatio last current → jiffiesRatio last current ≤ 100 →
      threadUtilisationValue last current = jiffiesRatio last current) ∧
    (∀ last current : Jiffies,
      jiffiesRatio last current < 0 ∨ 100 < jiffiesRatio last current →
      threadUtilisationValue last current = -1) ∧
    (∀ last current : Jiffies, current.all - last.all = 0 →
      threadUtilisationValue last current = -1) ∧
    (∀ last current : Jiffies, current.all - last.all ≠ 0 →
      0 ≤ jiffiesRatio last current → jiffiesRatio last current ≤ 1 →
      threadUtilisationValue last current = currentUtilisationValue last current) ∧
    (∀ (n thread_index : Nat) (current : Jiffies),
      (threadUtilisationStep n [] thread_index current).2.length = n ∧
      (threadUtilisationStep n [] thread_index current).1 =
        threadUtilisationValue {} current) := by
  refine ⟨?_, ?_, ?_, ?_, ?_⟩
  · intro last current h0 hlo hhi
    unfold threadUtilisationValue
    rw [if_neg h0, if_neg]
    push_neg
    exact ⟨hlo, hhi⟩
  · intro last current h
    unfold threadUtilisationValue
    by_cases h0 : current.all - last.all = 0
    · simp [h0]
    · simp only [if_neg h0]
      rw [if_pos h]
  · intro last current h0
    unfold threadUtilisationValue
    simp [h0]
  · intro last current h0 hlo hhi
    unfold threadUtilisationValue currentUtilisationValue
    rw [if_neg h0, if_neg h0, if_neg, if_neg]
    · push_neg; exact ⟨hlo, hhi⟩
    · push_neg; exact ⟨hlo, le_trans hhi (by norm_num)⟩
  · intro n thread_index current
    unfold threadUtilisationStep
    constructor
    · simp
    · show threadUtilisationValue
        ((List.replicate n ({} : Jiffies)).getD thread_index {}) current = _
      rcases Nat.lt_or_ge thread_index n with hlt | hge
      · rw [List.getD_eq_getElem _ _ (by simpa using hlt), List.getElem_replicate]
      · rw [List.getD_eq_default _ _ (by simpa using hge)]

/-- Witness for claim C5: an in-range quotient is returned as-is, a
negative quotient and a zero-width window give `-1`. -/
theorem threadUtilisation_range_policy_w :
    threadUtilisationValue ⟨0, 0⟩ ⟨100, 40⟩ = jiffiesRatio ⟨0, 0⟩ ⟨100, 40⟩ ∧
    threadUtilisationValue ⟨0, 40⟩ ⟨100, 0⟩ = -1 ∧
    threadUtilisationValue ⟨7, 7⟩ ⟨7, 9⟩ = -1 :=
  ⟨threadUtilisation_range_policy.1 ⟨0, 0⟩ ⟨100, 40⟩ (by norm_num)
      (by norm_num [jiffiesRatio]) (by norm_num [jiffiesRatio]),
   threadUtilisation_range_policy.2.1 ⟨0, 40⟩ ⟨100, 0⟩
      (Or.inl (by norm_num [jiffiesRatio])),
   threadUtilisation_range_policy.2.2.1 ⟨7, 7⟩ ⟨7, 9⟩ (by norm_num)⟩

/-- Claim C6: the frequency prober returns the value of the first path in
order whose read is non-negative, divided by 1000 (kHz to MHz), ignoring
all later paths; when every candidate path reads as absent/unreadable
(`-1`) it returns the sentinel `-1`. -/
theorem getFrequencyFromPaths_first_hit :
    (∀ (env : Env) (pre : List String) (p : String) (post : List String),
      (∀ q ∈ pre, env.fs q < 0) → 0 ≤ env.fs p →
      getFrequencyFromPaths env (pre ++ p :: post) = env.fs p / 1000) ∧
    (∀ (env : Env) (paths : List String), (∀ q ∈ paths, env.fs q = -1) →
      getFrequencyFromPaths env paths = -1) := by
  constructor
  · intro env pre p post hpre hp
    induction pre with
    | nil =>
      rw [List.nil_append, getFrequencyFromPaths_cons, if_pos (by omega)]
    | cons q qs ih =>
      have hq : env.fs q < 0 := hpre q (List.mem_cons_self q qs)
      rw [List.cons_append, getFrequencyFromPaths_cons, if_neg (by omega)]
      exact ih (fun r hr => hpre r (List.mem_cons_of_mem q hr))
  · intro env paths h
    induction paths with
    | nil => rfl
    | cons q qs ih =>
      have hq : env.fs q = -1 := h q (List.mem_cons_self q qs)
      rw [getFrequencyFromPaths_cons, if_neg (by omega)]
      exact ih (fun r hr => h r (List.mem_cons_of_mem q hr))

/-- Witness for claim C6: first hit at path `"b"` yields `2000 / 1000`,
and an all-failing list yields `-1`. -/
theorem getFrequencyFromPaths_first_hit_w :
    getFrequencyFromPaths envFreqB ["a", "b", "c"] = 2 ∧
    getFrequencyFromPaths envFreqB ["a", "x"] = -1 :=
  ⟨(getFrequencyFromPaths_first_hit.1 envFreqB ["a"] "b" ["c"]
      (by decide) (by decide)).trans (by decide),
   getFrequencyFromPaths_first_hit.2 envFreqB ["a", "x"] (by decide)⟩

/-- Claim C7: the nested implementer-to-part table resolves implementer
`0x41`, part `0xd03` to exactly `"Cortex-A53"`; a known implementer with
a part absent from its table, or an unknown implementer, yields
`"Unknown Model"`. -/
theorem getARMModelName_table :
    getARMModelName "0x41" "0xd03" = "Cortex-A53" ∧
    (∀ implementer parts part_hex, arm_models.lookup implementer = some parts →
      parts.lookup part_hex = none →
      getARMModelName implementer part_hex = "Unknown Model") ∧
    (∀ implementer part_hex, arm_models.lookup implementer = none →
      getARMModelName implementer part_hex = "Unknown Model") := by
  refine ⟨by decide, ?_, ?_⟩
  · intro implementer parts part_hex h1 h2
    simp [getARMModelName, h1, h2]
  · intro implementer part_hex h1
    simp [getARMModelName, h1]

/-- Witness for claim C7: implementer `0x54` (Texas Instruments, empty
part table) and the unknown implementer `0x99` both resolve to
`"Unknown Model"`. -/
theorem getARMModelName_table_w :
    getARMModelName "0x54" "0xd03" = "Unknown Model" ∧
    getARMModelName "0x99" "0xd03" = "Unknown Model" :=
  ⟨getARMModelName_table.2.1 "0x54" [] "0xd03" (by decide) rfl,
   getARMModelName_table.2.2 "0x99" "0xd03" (by decide)⟩

/-- Claim C8: on the x86-style input whose two blocks both contain
`physical id: 0` (and `siblings: 8`), `getAllCPUs` returns exactly one
record, its id is `0`, and its logical-core count is the parsed
`siblings` value `8`. -/
theorem getAllCPUs_x86_duplicate_id :
    getAllCPUs envX86Dup = some [cpuRecX86] ∧
    cpuRecX86._id = 0 ∧ cpuRecX86._numLogicalCores = 8 :=
  ⟨by set_option maxRecDepth 40000 in decide, rfl, rfl⟩

/-- Claim C9: an unopenable `/proc/cpuinfo`, an empty file, and a file
whose content is only whitespace all make `getAllCPUs` return the empty
sequence; the function is total, so no error is raised. -/
theorem getAllCPUs_no_valid_blocks :
    (∀ fs : String → Int, getAllCPUs ⟨none, fs⟩ = some []) ∧
    (∀ fs : String → Int, getAllCPUs ⟨some "", fs⟩ = some []) ∧
    (∀ (fs : String → Int) (content : String),
      (∀ c ∈ content.data, isWsChar c = true) →
      getAllCPUs ⟨some content, fs⟩ = some []) := by
  refine ⟨fun fs => rfl, fun fs => rfl, ?_⟩
  intro fs content hws
  by_cases hne : content = ""
  · subst hne; rfl
  · unfold getAllCPUs
    simp only
    rw [if_neg hne, if_pos]
    rw [List.isEmpty_iff]
    rw [List.filter_eq_nil_iff]
    intro b hb
    rcases List.mem_map.1 hb with ⟨t, ht, rfl⟩
    have hall : blockIsAllWs (List.asString t) = true := by
      unfold blockIsAllWs
      rw [List.all_eq_true]
      intro c hc
      exact hws c (splitL_mem_subset content.data _ t ht c hc)
    simp [hall]

/-- Witness for claim C9 on whitespace-only content. -/
theorem getAllCPUs_no_valid_blocks_w :
    getAllCPUs ⟨some " \n\t", fun _ => -1⟩ = some [] :=
  getAllCPUs_no_valid_blocks.2.2 (fun _ => -1) " \n\t" (by decide)

/-- Claim C10: both samplers overwrite the stored "last" snapshot with
the freshly read snapshot unconditionally — in particular also when the
call returns the sentinel `-1` — because the store happens before the
range guard (cpu.cpp:121, cpu.cpp:145). -/
theorem utilisation_overwrites_last :
    (∀ last current : Jiffies, (currentUtilisationStep last current).2 = current) ∧
    (∀ last current : Jiffies, (currentUtilisationStep last current).1 = -1 →
      (currentUtilisationStep last current).2 = current) ∧
    (∀ (n : Nat) (lastList : List Jiffies) (thread_index : Nat) (current : Jiffies),
      thread_index < (threadUtilisationStep n lastList thread_index current).2.length →
      (threadUtilisationStep n lastList thread_index current).2.getD thread_index {} =
        current) := by
  refine ⟨fun _ _ => rfl, fun _ _ _ => rfl, ?_⟩
  intro n lastList thread_index current h
  unfold threadUtilisationStep at h ⊢
  simp only at h ⊢
  rw [List.getD_eq_getElem _ _ (by simpa using h)]
  simp

/-- Witness for claim C10: the stored snapshot is overwritten even on a
sentinel-returning call (zero-width window). -/
theorem utilisation_overwrites_last_w :
    (threadUtilisationStep 2 [] 0 ⟨3, 2⟩).2.getD 0 ({} : Jiffies) = ⟨3, 2⟩ ∧
    (currentUtilisationStep ⟨5, 5⟩ ⟨5, 5⟩).1 = -1 ∧
    (currentUtilisationStep ⟨5, 5⟩ ⟨5, 5⟩).2 = ⟨5, 5⟩ :=
  ⟨utilisation_overwrites_last.2.2 2 [] 0 ⟨3, 2⟩ (by decide),
   by decide,
   utilisation_overwrites_last.2.1 ⟨5, 5⟩ ⟨5, 5⟩ (by decide)⟩

end Hwinfo
